import Mathlib

/-!
Shallow embedding of `src/ECE425L_PWM-main/PWM/main.c` (TM4C123G PWM lab).

The program's mutable state is three file-scope globals:
  `static uint32_t Timer_0A_ms_elapsed = 0;`
  `static uint16_t RGB_LED_duty_cycle = 0;`
  `static uint8_t  increment_duty_cycle = 1;`
Machine integers are modelled as `Nat` with explicit reduction modulo
`2^32` (resp. `2^16`) wherever a store to the C variable occurs.

The opaque PWM drivers are modelled by recording each
`PWMx_Update_Duty_Cycle(v)` call as a pair of the channel written and the
commanded duty value; `PWM1_3` drives the RGB LED pin PF2 and `PWM0_0`
drives the servo pin PB6.
-/

/-- The two PWM output channels the program writes:
`PWM0_0` (servo, pin PB6) and `PWM1_3` (RGB LED, pin PF2). -/
inductive PWMChannel where
  | PWM0_0
  | PWM1_3
deriving DecidableEq, Repr

/-- Modulus of the C type `uint32_t`. -/
def UINT32_MOD : Nat := 4294967296

/-- Modulus of the C type `uint16_t`. -/
def UINT16_MOD : Nat := 65536

/-- The three file-scope globals of `main.c` that the periodic timer task
reads and writes. -/
structure FadeState where
  Timer_0A_ms_elapsed : Nat
  RGB_LED_duty_cycle : Nat
  increment_duty_cycle : Nat
deriving DecidableEq, Repr

/-- Initial values of the globals: `Timer_0A_ms_elapsed = 0`,
`RGB_LED_duty_cycle = 0`, `increment_duty_cycle = 1`. -/
def initial_state : FadeState := ⟨0, 0, 1⟩

/-- Embedding of `Timer_0A_Periodic_Task` (main.c lines 151-177).
The task first executes `Timer_0A_ms_elapsed++` (a `uint32_t` store, hence
mod `2^32`); when the incremented counter is divisible by 5 it updates
`RGB_LED_duty_cycle` / `increment_duty_cycle` exactly as the C code does
(all stores to `RGB_LED_duty_cycle` reduced mod `2^16`) and then calls
`PWM1_3_Update_Duty_Cycle(RGB_LED_duty_cycle)`, returned here as
`some (PWM1_3, duty)`; on the other ticks nothing else happens and no PWM
call is issued (`none`). -/
def Timer_0A_Periodic_Task (s : FadeState) : FadeState × Option (PWMChannel × Nat) :=
  if ((s.Timer_0A_ms_elapsed + 1) % UINT32_MOD) % 5 = 0 then
    if s.increment_duty_cycle = 1 then
      if 56250 ≤ (s.RGB_LED_duty_cycle + 50) % UINT16_MOD then
        (⟨(s.Timer_0A_ms_elapsed + 1) % UINT32_MOD, 0, s.increment_duty_cycle⟩,
          some (PWMChannel.PWM1_3, 0))
      else
        (⟨(s.Timer_0A_ms_elapsed + 1) % UINT32_MOD,
            (s.RGB_LED_duty_cycle + 50) % UINT16_MOD, s.increment_duty_cycle⟩,
          some (PWMChannel.PWM1_3, (s.RGB_LED_duty_cycle + 50) % UINT16_MOD))
    else
      if 0 < s.RGB_LED_duty_cycle then
        (⟨(s.Timer_0A_ms_elapsed + 1) % UINT32_MOD,
            (s.RGB_LED_duty_cycle + (UINT16_MOD - 50)) % UINT16_MOD, s.increment_duty_cycle⟩,
          some (PWMChannel.PWM1_3,
            (s.RGB_LED_duty_cycle + (UINT16_MOD - 50)) % UINT16_MOD))
      else
        (⟨(s.Timer_0A_ms_elapsed + 1) % UINT32_MOD, s.RGB_LED_duty_cycle, 1⟩,
          some (PWMChannel.PWM1_3, s.RGB_LED_duty_cycle))
  else
    (⟨(s.Timer_0A_ms_elapsed + 1) % UINT32_MOD, s.RGB_LED_duty_cycle,
        s.increment_duty_cycle⟩, none)

/-- State transformer part of one timer tick (the PWM call discarded). -/
def fade_step (s : FadeState) : FadeState := (Timer_0A_Periodic_Task s).1

/-- Embedding of `PMOD_BTN_Handler` (main.c lines 100-138): the `switch`
on the button status mask. A recognized mask issues exactly one
`PWM0_0_Update_Duty_Cycle` call (returned as `some (PWM0_0, duty)`); the
`default` case does nothing (`none`). The handler body references none of
the program's globals. -/
def PMOD_BTN_Handler (pmod_btn_status : Nat) : Option (PWMChannel × Nat) :=
  if pmod_btn_status = 0x04 then some (PWMChannel.PWM0_0, 1875)
  else if pmod_btn_status = 0x08 then some (PWMChannel.PWM0_0, 3125)
  else if pmod_btn_status = 0x10 then some (PWMChannel.PWM0_0, 5000)
  else if pmod_btn_status = 0x20 then some (PWMChannel.PWM0_0, 7187)
  else none

/-- Interrupt events that can mutate or read the program state. -/
inductive Event where
  | timerTick
  | button (mask : Nat)

/-- System-level step: a timer tick runs `Timer_0A_Periodic_Task`; a
button edge runs `PMOD_BTN_Handler`, which (as in the source) reads and
writes none of the globals, so the state component is returned unchanged. -/
def system_step (s : FadeState) : Event → FadeState × Option (PWMChannel × Nat)
  | Event.timerTick => Timer_0A_Periodic_Task s
  | Event.button mask => (s, PMOD_BTN_Handler mask)

/-- Body of the `while(1)` loop in `main` (lines 76-90): three
`PWM1_3_Update_Duty_Cycle` calls, each followed by
`SysTick_Delay1ms(2000)`. Each entry is (channel written, commanded duty,
blocking hold in ms), in program order. -/
def main_loop_body : List (PWMChannel × Nat × Nat) :=
  [(PWMChannel.PWM1_3, 3125, 2000),
   (PWMChannel.PWM1_3, 18750, 2000),
   (PWMChannel.PWM1_3, 59375, 2000)]

/-- The set (as a list) of PWM channels the main loop writes. -/
def main_loop_channels : List PWMChannel := main_loop_body.map (fun e => e.1)

/-- Total duration of one main-loop iteration in ms. -/
def main_loop_period : Nat := (main_loop_body.map (fun e => e.2.2)).sum

/-- Duty value a segment list commands at offset `t` ms into one loop
iteration: each `(c, v, h)` entry means "update to `v`, then hold for `h`
ms" (the update is a blocking-delay-bracketed call, so `v` is the
commanded value throughout `[start, start + h)`). -/
def schedule_duty_at : List (PWMChannel × Nat × Nat) → Nat → Nat
  | [], _ => 0
  | (_, v, h) :: rest, t => if t < h then v else schedule_duty_at rest (t - h)

/-- Duty value the main loop has commanded on PWM1_3 at time `t` ms after
the loop is entered, obtained by running the loop body cyclically. -/
def mainB_commanded_duty (t : Nat) : Nat :=
  schedule_duty_at main_loop_body (t % main_loop_period)

/-- Spec-side timeline for the main loop's channel, written from the
spec's words for comparison with `mainB_commanded_duty`: duty 3125 on
[0,2000) ms, 18750 on [2000,4000) ms, 59375 on [4000,6000) ms, repeating
with period 6000 ms. -/
def spec_mainB_duty (t : Nat) : Nat :=
  if t % 6000 < 2000 then 3125
  else if t % 6000 < 4000 then 18750
  else 59375

/-- Invariant of the fade duty value claimed by the spec's data model:
always a multiple of the step size 50 and within the duty range bounded
by the 56250 ceiling. -/
def FadeDutyInv (s : FadeState) : Prop :=
  s.RGB_LED_duty_cycle % 50 = 0 ∧ s.RGB_LED_duty_cycle < 56250

/-- Run of a sequence of interrupt events against the global state. -/
def run_events : FadeState → List Event → FadeState
  | s, [] => s
  | s, e :: rest => run_events (system_step s e).1 rest

/-- Helper: one timer tick never clears the increment flag — no branch of
`Timer_0A_Periodic_Task` assigns anything other than the old value or 1. -/
theorem fade_step_increment_of_one (s : FadeState)
    (h : s.increment_duty_cycle = 1) :
    (fade_step s).increment_duty_cycle = 1 := by
  unfold fade_step Timer_0A_Periodic_Task
  split_ifs <;> simp_all

/-- Helper: a run of arbitrary interrupt events preserves
`increment_duty_cycle = 1`. -/
theorem run_events_increment (es : List Event) :
    ∀ s : FadeState, s.increment_duty_cycle = 1 →
      (run_events s es).increment_duty_cycle = 1 := by
  induction es with
  | nil => intro s h; exact h
  | cons e rest ih =>
      intro s h
      cases e with
      | timerTick => exact ih _ (fade_step_increment_of_one s h)
      | button mask => exact ih _ h

/-- C10: from the initial state (`increment_duty_cycle = 1`, duty 0,
counter 0), the direction flag equals 1 (RISING) in every reachable
state: no interleaving of timer ticks and button events ever sets it to
0, so the decrement branch of the fade task is unreachable. -/
theorem C10_direction_always_rising (es : List Event) :
    (run_events initial_state es).increment_duty_cycle = 1 :=
  run_events_increment es initial_state rfl

/-- C1 counterexample: at state (counter 4, duty 56200, flag RISING) the
next tick qualifies and the duty value reaches the ceiling
(56200 + 50 = 56250 ≥ 56250, so it is reset to 0), yet the direction
flag stays 1 (RISING) and does not transition to FALLING, refuting the
claimed RISING→FALLING transition at the duty ceiling. -/
theorem C1_counterexample :
    56250 ≤ (56200 : Nat) + 50
    ∧ (Timer_0A_Periodic_Task ⟨4, 56200, 1⟩).1.RGB_LED_duty_cycle = 0
    ∧ (Timer_0A_Periodic_Task ⟨4, 56200, 1⟩).1.increment_duty_cycle = 1
    ∧ ¬ (Timer_0A_Periodic_Task ⟨4, 56200, 1⟩).1.increment_duty_cycle = 0 := by
  decide

/-- C1 (amended): the direction flag never transitions RISING→FALLING —
reaching the duty ceiling resets the duty to 0 with the flag left at
RISING; the flag changes exactly when the controller is in FALLING with
duty 0 on a qualifying tick, and there it flips to RISING. -/
theorem C1_flag_transitions (s : FadeState)
    (hs : s.increment_duty_cycle = 0 ∨ s.increment_duty_cycle = 1) :
    ((fade_step s).increment_duty_cycle ≠ s.increment_duty_cycle ↔
      s.increment_duty_cycle = 0 ∧ s.RGB_LED_duty_cycle = 0
        ∧ ((s.Timer_0A_ms_elapsed + 1) % UINT32_MOD) % 5 = 0)
    ∧ (s.increment_duty_cycle = 1 → (fade_step s).increment_duty_cycle = 1) := by
  unfold fade_step Timer_0A_Periodic_Task
  rcases hs with h | h <;> rw [h] <;> split_ifs <;> simp_all <;> omega

/-- C1 witness: in state (counter 4, duty 0, flag FALLING) the flip
characterized by the amended theorem fires. -/
theorem C1_flag_transitions_witness :
    (fade_step ⟨4, 0, 0⟩).increment_duty_cycle
      ≠ (FadeState.mk 4 0 0).increment_duty_cycle :=
  ((C1_flag_transitions ⟨4, 0, 0⟩ (Or.inl rfl)).1).mpr ⟨rfl, rfl, by decide⟩

/-- C2: in a RISING state with duty below the ceiling, a qualifying tick
adds exactly 50 to the duty; if the result is ≥ 56250 the duty is reset
to exactly 0; the direction flag is unchanged (stays 1, RISING), and the
duty stays below the ceiling so this applies again to every later
qualifying tick of a run started from duty 0. -/
theorem C2_rising_step (s : FadeState)
    (hinc : s.increment_duty_cycle = 1)
    (hlt : s.RGB_LED_duty_cycle < 56250)
    (hq : ((s.Timer_0A_ms_elapsed + 1) % UINT32_MOD) % 5 = 0) :
    (fade_step s).RGB_LED_duty_cycle =
        (if 56250 ≤ s.RGB_LED_duty_cycle + 50 then 0
         else s.RGB_LED_duty_cycle + 50)
    ∧ (fade_step s).increment_duty_cycle = 1
    ∧ (fade_step s).RGB_LED_duty_cycle < 56250 := by
  have hm : (s.RGB_LED_duty_cycle + 50) % UINT16_MOD = s.RGB_LED_duty_cycle + 50 := by
    unfold UINT16_MOD; omega
  unfold fade_step Timer_0A_Periodic_Task
  rw [if_pos hq, if_pos hinc, hm]
  split_ifs with h <;> simp_all <;> omega

/-- C2 witness: the first qualifying tick from duty 0 raises the duty to
50 and keeps the flag at RISING. -/
theorem C2_rising_step_witness :
    (fade_step ⟨4, 0, 1⟩).RGB_LED_duty_cycle = 50
    ∧ (fade_step ⟨4, 0, 1⟩).increment_duty_cycle = 1 := by
  have h := C2_rising_step ⟨4, 0, 1⟩ rfl (by decide) (by decide)
  refine ⟨?_, h.2.1⟩
  rw [h.1]
  decide

/-- C5: in a FALLING state whose duty is a multiple of 50 (as on the
claimed 150→100→50→0 run) a qualifying tick subtracts exactly 50 while
the duty is positive — no wraparound below 0 — and once the duty is 0 it
flips the flag to RISING leaving the duty at 0. -/
theorem C5_falling_step (s : FadeState)
    (hinc : s.increment_duty_cycle = 0)
    (h50 : s.RGB_LED_duty_cycle % 50 = 0)
    (hub : s.RGB_LED_duty_cycle < UINT16_MOD)
    (hq : ((s.Timer_0A_ms_elapsed + 1) % UINT32_MOD) % 5 = 0) :
    (0 < s.RGB_LED_duty_cycle →
        (fade_step s).RGB_LED_duty_cycle = s.RGB_LED_duty_cycle - 50
        ∧ (fade_step s).increment_duty_cycle = 0)
    ∧ (s.RGB_LED_duty_cycle = 0 →
        (fade_step s).RGB_LED_duty_cycle = 0
        ∧ (fade_step s).increment_duty_cycle = 1) := by
  unfold UINT16_MOD at hub
  unfold fade_step Timer_0A_Periodic_Task UINT16_MOD
  rw [if_pos hq, hinc]
  split_ifs <;> constructor <;> intro hd <;> simp_all <;> omega

/-- C5 witness: one qualifying tick from (duty 150, FALLING) lowers the
duty to 100, and one from (duty 0, FALLING) flips the flag to RISING. -/
theorem C5_falling_step_witness :
    ((fade_step ⟨4, 150, 0⟩).RGB_LED_duty_cycle = 150 - 50
      ∧ (fade_step ⟨4, 150, 0⟩).increment_duty_cycle = 0)
    ∧ ((fade_step ⟨9, 0, 0⟩).RGB_LED_duty_cycle = 0
      ∧ (fade_step ⟨9, 0, 0⟩).increment_duty_cycle = 1) :=
  ⟨(C5_falling_step ⟨4, 150, 0⟩ rfl (by decide) (by decide) (by decide)).1 (by decide),
   (C5_falling_step ⟨9, 0, 0⟩ rfl (by decide) (by decide) (by decide)).2 rfl⟩

/-- C3 counterexample: the periodic fade task writes channel PWM1_3 (here
at the concrete state (counter 4, duty 0, RISING)), and PWM1_3 is also
among the channels written by the main loop, so the channel sets of the
main loop and of the interrupt subsystems are not disjoint. -/
theorem C3_counterexample :
    (Timer_0A_Periodic_Task ⟨4, 0, 1⟩).2 = some (PWMChannel.PWM1_3, 50)
    ∧ PWMChannel.PWM1_3 ∈ main_loop_channels := by
  decide

/-- C3 (amended): the button handler writes only channel PWM0_0, which
the main loop never writes — that pair is disjoint; but every PWM call
issued by the periodic fade task targets PWM1_3, a channel the main loop
also writes, so the main loop's output is independent of the button
subsystem only, not of the fade task. -/
theorem C3_channel_usage :
    (∀ (mask : Nat) (u : PWMChannel × Nat), PMOD_BTN_Handler mask = some u →
        u.1 = PWMChannel.PWM0_0 ∧ u.1 ∉ main_loop_channels)
    ∧ ∀ (s : FadeState) (u : PWMChannel × Nat),
        (Timer_0A_Periodic_Task s).2 = some u →
        u.1 = PWMChannel.PWM1_3 ∧ u.1 ∈ main_loop_channels := by
  constructor
  · intro mask u h
    unfold PMOD_BTN_Handler at h
    split_ifs at h <;>
      first
        | (injection h with h2; rw [← h2];
            exact ⟨rfl, by simp [main_loop_channels, main_loop_body]⟩)
        | exact Option.noConfusion h
  · intro s u h
    unfold Timer_0A_Periodic_Task at h
    split_ifs at h <;> dsimp only at h <;>
      first
        | (injection h with h2; rw [← h2];
            exact ⟨rfl, by simp [main_loop_channels, main_loop_body]⟩)
        | exact Option.noConfusion h

/-- C3 witness: the amended theorem applied to the concrete button update
for mask 0x04 and to the fade-task update issued at state
(counter 4, duty 0, RISING). -/
theorem C3_channel_usage_witness :
    ((PWMChannel.PWM0_0, 1875).1 = PWMChannel.PWM0_0
      ∧ (PWMChannel.PWM0_0, 1875).1 ∉ main_loop_channels)
    ∧ ((PWMChannel.PWM1_3, 50).1 = PWMChannel.PWM1_3
      ∧ (PWMChannel.PWM1_3, 50).1 ∈ main_loop_channels) :=
  ⟨C3_channel_usage.1 4 (PWMChannel.PWM0_0, 1875) (by decide),
   C3_channel_usage.2 ⟨4, 0, 1⟩ (PWMChannel.PWM1_3, 50) (by decide)⟩

/-- C4: the button handler maps mask 0x04 to a servo (PWM0_0) duty
update with value 1875, 0x08 to 3125, 0x10 to 5000, and 0x20 to 7187. -/
theorem C4_button_mapping :
    PMOD_BTN_Handler 0x04 = some (PWMChannel.PWM0_0, 1875)
    ∧ PMOD_BTN_Handler 0x08 = some (PWMChannel.PWM0_0, 3125)
    ∧ PMOD_BTN_Handler 0x10 = some (PWMChannel.PWM0_0, 5000)
    ∧ PMOD_BTN_Handler 0x20 = some (PWMChannel.PWM0_0, 7187) := by
  decide

/-- C6: every invocation of the fade task increments the tick counter by
exactly 1 (modulo the uint32 wrap) unconditionally; when the counter is
divisible by 5 it always pushes the (possibly unchanged) updated duty to
the LED channel PWM1_3; on every non-qualifying tick the duty value, the
direction flag and the PWM output are untouched (no PWM call at all). -/
theorem C6_tick_frame (s : FadeState) :
    (fade_step s).Timer_0A_ms_elapsed = (s.Timer_0A_ms_elapsed + 1) % UINT32_MOD
    ∧ (((s.Timer_0A_ms_elapsed + 1) % UINT32_MOD) % 5 = 0 →
        (Timer_0A_Periodic_Task s).2 =
          some (PWMChannel.PWM1_3, (fade_step s).RGB_LED_duty_cycle))
    ∧ (¬ ((s.Timer_0A_ms_elapsed + 1) % UINT32_MOD) % 5 = 0 →
        (fade_step s).RGB_LED_duty_cycle = s.RGB_LED_duty_cycle
        ∧ (fade_step s).increment_duty_cycle = s.increment_duty_cycle
        ∧ (Timer_0A_Periodic_Task s).2 = none) := by
  unfold fade_step Timer_0A_Periodic_Task
  split_ifs <;> simp_all

/-- C6 witness: tick 5 (a qualifying tick) pushes the updated duty;
tick 1 (non-qualifying) leaves the duty unchanged. -/
theorem C6_tick_frame_witness :
    (Timer_0A_Periodic_Task ⟨4, 0, 1⟩).2 =
        some (PWMChannel.PWM1_3, (fade_step ⟨4, 0, 1⟩).RGB_LED_duty_cycle)
    ∧ (fade_step ⟨0, 0, 1⟩).RGB_LED_duty_cycle
        = (FadeState.mk 0 0 1).RGB_LED_duty_cycle :=
  ⟨(C6_tick_frame ⟨4, 0, 1⟩).2.1 (by decide),
   ((C6_tick_frame ⟨0, 0, 1⟩).2.2 (by decide)).1⟩

/-- C7: the duty the main loop commands on its channel over time, derived
from the loop body (update 3125, hold 2000 ms; update 18750, hold
2000 ms; update 59375, hold 2000 ms; repeat), equals the spec's
timeline: 3125 on [0,2000) ms, 18750 on [2000,4000) ms, 59375 on
[4000,6000) ms modulo the 6000 ms period, repeating indefinitely. -/
theorem C7_main_loop_timeline (t : Nat) :
    mainB_commanded_duty t = spec_mainB_duty t := by
  have hper : main_loop_period = 6000 := rfl
  have hlt : t % 6000 < 6000 := Nat.mod_lt _ (by norm_num)
  unfold mainB_commanded_duty spec_mainB_duty
  rw [hper]
  simp only [main_loop_body, schedule_duty_at]
  split_ifs <;> omega

/-- C8: the fade duty value is a multiple of the step size 50 and stays
within [0, 56250): the invariant holds in the initial state (duty 0) and
is preserved by every invocation of the fade task. -/
theorem C8_duty_invariant :
    FadeDutyInv initial_state
    ∧ ∀ s : FadeState, FadeDutyInv s → FadeDutyInv (fade_step s) := by
  constructor
  · exact ⟨rfl, by decide⟩
  · intro s hs
    obtain ⟨h50, hlt⟩ := hs
    have hm1 : (s.RGB_LED_duty_cycle + 50) % UINT16_MOD
        = s.RGB_LED_duty_cycle + 50 := by
      unfold UINT16_MOD; omega
    unfold fade_step Timer_0A_Periodic_Task FadeDutyInv
    rw [hm1]
    rcases Nat.eq_zero_or_pos s.RGB_LED_duty_cycle with hd0 | hd0
    · split_ifs <;> dsimp only <;> omega
    · have hm2 : (s.RGB_LED_duty_cycle + (UINT16_MOD - 50)) % UINT16_MOD
          = s.RGB_LED_duty_cycle - 50 := by
        unfold UINT16_MOD; omega
      rw [hm2]
      split_ifs <;> dsimp only <;> omega

/-- C8 witness: the invariant, holding at (counter 4, duty 100, RISING),
still holds after one invocation of the fade task. -/
theorem C8_duty_invariant_witness :
    FadeDutyInv (fade_step ⟨4, 100, 1⟩) :=
  C8_duty_invariant.2 ⟨4, 100, 1⟩ ⟨rfl, by norm_num⟩

/-- C9: for every mask other than 0x04, 0x08, 0x10, 0x20 (so 0x00,
multi-bit masks such as 0x0C, 0xFF, ...), the button handler issues no
PWM update and leaves the program state unchanged. -/
theorem C9_unrecognized_mask_noop (s : FadeState) (mask : Nat)
    (h4 : mask ≠ 0x04) (h8 : mask ≠ 0x08) (h16 : mask ≠ 0x10)
    (h32 : mask ≠ 0x20) :
    system_step s (Event.button mask) = (s, none) := by
  simp [system_step, PMOD_BTN_Handler, h4, h8, h16, h32]

/-- C9 witness: the multi-press mask 0x0C is a no-op. -/
theorem C9_unrecognized_mask_noop_witness :
    system_step ⟨0, 0, 1⟩ (Event.button 0x0C) = (⟨0, 0, 1⟩, none) :=
  C9_unrecognized_mask_noop ⟨0, 0, 1⟩ 0x0C (by decide) (by decide)
    (by decide) (by decide)
